import Mathlib

/-!
# Verification of the MathSnip Texo inference daemon

Shallow embedding of `src/backends/texo/inference.py`: the pure text
formatter `format_latex`, the per-connection request handler inside
`run_server`'s accept loop, the `cleanup` routine for the endpoint
artifacts, and the ordered effect trace of `run_server`'s startup.

Python semantics modelled explicitly:
* `str.split()` / `str.strip()` split on (resp. strip) Unicode whitespace
  and drop empty tokens; `pyIsSpace` lists the code points Python treats
  as whitespace for these operations.
* `str.isalnum()` is Unicode-aware; `pyIsAlnum` tests membership in
  `alnumRanges`, the full list of code point ranges CPython's
  `isalnum()` accepts, so the formatter's space rule fires on exactly
  the successors it fires on in Python (ASCII and beyond, e.g. `é`).
* `bytes.decode('utf-8')` is a strict UTF-8 decoder that rejects invalid,
  overlong, surrogate and out-of-range sequences; failure raises an
  exception, modelled as `Except.error` carrying the exception text.
* `pathlib.Path(s)` normalises the empty string to `"."`
  (`Path('') == Path('.')`); `pathlibNorm` captures exactly that rule and
  passes every other string through, the ambient filesystem predicate
  absorbing any further (claim-irrelevant) path normalisation.
* `os.unlink` on a missing file raises `OSError`, modelled as
  `Except.error`.
The opaque model (`Image.open`, preprocessing, `model.generate`,
`tokenizer.decode`) is an external collaborator and enters the embedding
as an abstract function `recognize : String → Except String String`
whose `error` case models a raised exception's `str(e)`.
-/

namespace MathSnip

/-! ## Python whitespace (`str.split()` / `str.strip()` character class) -/

/-- The code points Python's `str.split()` and `str.strip()` treat as
whitespace: ASCII whitespace, the C1 separators, NEL, NBSP and the
Unicode space separators. -/
def pyIsSpace (c : Char) : Bool :=
  let n := c.toNat
  (9 ≤ n && n ≤ 13) || (28 ≤ n && n ≤ 31) || n == 32 || n == 133 || n == 160 ||
    n == 0x1680 || (0x2000 ≤ n && n ≤ 0x200A) || n == 0x2028 || n == 0x2029 ||
    n == 0x202F || n == 0x205F || n == 0x3000

/-- Worker for `splitWs`: accumulates the current (reversed) token in `acc`.
Mirrors Python `str.split()`: runs of whitespace separate tokens, no empty
tokens are produced. -/
def splitWsAux : List Char → List Char → List (List Char)
  | [], acc => if acc = [] then [] else [acc.reverse]
  | c :: cs, acc =>
      if pyIsSpace c then
        if acc = [] then splitWsAux cs []
        else acc.reverse :: splitWsAux cs []
      else splitWsAux cs (c :: acc)

/-- Python `latex.split()` (inference.py line 86). -/
def splitWs (s : List Char) : List (List Char) := splitWsAux s []

/-! ## The text formatter (`format_latex`, inference.py lines 72-106) -/

/-- The line-break token: the literal two-character sequence `\\`
(Python literal `'\\\\'`, inference.py line 96). -/
def lbTok : List Char := ['\\', '\\']

/-- Python `token.startswith('\\')` (inference.py line 99). -/
def startsWithBackslash (t : List Char) : Bool :=
  match t with
  | '\\' :: _ => true
  | _ => false

/-- The code points for which Python's Unicode-aware `str.isalnum()` is
true (Unicode alphabetic and numeric characters), as consecutive
inclusive ranges in ascending order. The table is CPython's own answer:
it lists exactly the code points `cp` with `chr(cp).isalnum()` true, the
predicate inference.py line 99 evaluates. -/
def alnumRanges : List (Nat × Nat) :=
  [(48, 57), (65, 90), (97, 122), (170, 170), (178, 179), (181, 181), (185, 186), (188, 190),
   (192, 214), (216, 246), (248, 705), (710, 721), (736, 740), (748, 748), (750, 750), (880, 884),
   (886, 887), (890, 893), (895, 895), (902, 902), (904, 906), (908, 908), (910, 929),
   (931, 1013), (1015, 1153), (1162, 1327), (1329, 1366), (1369, 1369), (1376, 1416),
   (1488, 1514), (1519, 1522), (1568, 1610), (1632, 1641), (1646, 1647), (1649, 1747),
   (1749, 1749), (1765, 1766), (1774, 1788), (1791, 1791), (1808, 1808), (1810, 1839),
   (1869, 1957), (1969, 1969), (1984, 2026), (2036, 2037), (2042, 2042), (2048, 2069),
   (2074, 2074), (2084, 2084), (2088, 2088), (2112, 2136), (2144, 2154), (2160, 2183),
   (2185, 2190), (2208, 2249), (2308, 2361), (2365, 2365), (2384, 2384), (2392, 2401),
   (2406, 2415), (2417, 2432), (2437, 2444), (2447, 2448), (2451, 2472), (2474, 2480),
   (2482, 2482), (2486, 2489), (2493, 2493), (2510, 2510), (2524, 2525), (2527, 2529),
   (2534, 2545), (2548, 2553), (2556, 2556), (2565, 2570), (2575, 2576), (2579, 2600),
   (2602, 2608), (2610, 2611), (2613, 2614), (2616, 2617), (2649, 2652), (2654, 2654),
   (2662, 2671), (2674, 2676), (2693, 2701), (2703, 2705), (2707, 2728), (2730, 2736),
   (2738, 2739), (2741, 2745), (2749, 2749), (2768, 2768), (2784, 2785), (2790, 2799),
   (2809, 2809), (2821, 2828), (2831, 2832), (2835, 2856), (2858, 2864), (2866, 2867),
   (2869, 2873), (2877, 2877), (2908, 2909), (2911, 2913), (2918, 2927), (2929, 2935),
   (2947, 2947), (2949, 2954), (2958, 2960), (2962, 2965), (2969, 2970), (2972, 2972),
   (2974, 2975), (2979, 2980), (2984, 2986), (2990, 3001), (3024, 3024), (3046, 3058),
   (3077, 3084), (3086, 3088), (3090, 3112), (3114, 3129), (3133, 3133), (3160, 3162),
   (3165, 3165), (3168, 3169), (3174, 3183), (3192, 3198), (3200, 3200), (3205, 3212),
   (3214, 3216), (3218, 3240), (3242, 3251), (3253, 3257), (3261, 3261), (3293, 3294),
   (3296, 3297), (3302, 3311), (3313, 3314), (3332, 3340), (3342, 3344), (3346, 3386),
   (3389, 3389), (3406, 3406), (3412, 3414), (3416, 3425), (3430, 3448), (3450, 3455),
   (3461, 3478), (3482, 3505), (3507, 3515), (3517, 3517), (3520, 3526), (3558, 3567),
   (3585, 3632), (3634, 3635), (3648, 3654), (3664, 3673), (3713, 3714), (3716, 3716),
   (3718, 3722), (3724, 3747), (3749, 3749), (3751, 3760), (3762, 3763), (3773, 3773),
   (3776, 3780), (3782, 3782), (3792, 3801), (3804, 3807), (3840, 3840), (3872, 3891),
   (3904, 3911), (3913, 3948), (3976, 3980), (4096, 4138), (4159, 4169), (4176, 4181),
   (4186, 4189), (4193, 4193), (4197, 4198), (4206, 4208), (4213, 4225), (4238, 4238),
   (4240, 4249), (4256, 4293), (4295, 4295), (4301, 4301), (4304, 4346), (4348, 4680),
   (4682, 4685), (4688, 4694), (4696, 4696), (4698, 4701), (4704, 4744), (4746, 4749),
   (4752, 4784), (4786, 4789), (4792, 4798), (4800, 4800), (4802, 4805), (4808, 4822),
   (4824, 4880), (4882, 4885), (4888, 4954), (4969, 4988), (4992, 5007), (5024, 5109),
   (5112, 5117), (5121, 5740), (5743, 5759), (5761, 5786), (5792, 5866), (5870, 5880),
   (5888, 5905), (5919, 5937), (5952, 5969), (5984, 5996), (5998, 6000), (6016, 6067),
   (6103, 6103), (6108, 6108), (6112, 6121), (6128, 6137), (6160, 6169), (6176, 6264),
   (6272, 6276), (6279, 6312), (6314, 6314), (6320, 6389), (6400, 6430), (6470, 6509),
   (6512, 6516), (6528, 6571), (6576, 6601), (6608, 6618), (6656, 6678), (6688, 6740),
   (6784, 6793), (6800, 6809), (6823, 6823), (6917, 6963), (6981, 6988), (6992, 7001),
   (7043, 7072), (7086, 7141), (7168, 7203), (7232, 7241), (7245, 7293), (7296, 7304),
   (7312, 7354), (7357, 7359), (7401, 7404), (7406, 7411), (7413, 7414), (7418, 7418),
   (7424, 7615), (7680, 7957), (7960, 7965), (7968, 8005), (8008, 8013), (8016, 8023),
   (8025, 8025), (8027, 8027), (8029, 8029), (8031, 8061), (8064, 8116), (8118, 8124),
   (8126, 8126), (8130, 8132), (8134, 8140), (8144, 8147), (8150, 8155), (8160, 8172),
   (8178, 8180), (8182, 8188), (8304, 8305), (8308, 8313), (8319, 8329), (8336, 8348),
   (8450, 8450), (8455, 8455), (8458, 8467), (8469, 8469), (8473, 8477), (8484, 8484),
   (8486, 8486), (8488, 8488), (8490, 8493), (8495, 8505), (8508, 8511), (8517, 8521),
   (8526, 8526), (8528, 8585), (9312, 9371), (9450, 9471), (10102, 10131), (11264, 11492),
   (11499, 11502), (11506, 11507), (11517, 11517), (11520, 11557), (11559, 11559), (11565, 11565),
   (11568, 11623), (11631, 11631), (11648, 11670), (11680, 11686), (11688, 11694), (11696, 11702),
   (11704, 11710), (11712, 11718), (11720, 11726), (11728, 11734), (11736, 11742), (11823, 11823),
   (12293, 12295), (12321, 12329), (12337, 12341), (12344, 12348), (12353, 12438), (12445, 12447),
   (12449, 12538), (12540, 12543), (12549, 12591), (12593, 12686), (12690, 12693), (12704, 12735),
   (12784, 12799), (12832, 12841), (12872, 12879), (12881, 12895), (12928, 12937), (12977, 12991),
   (13312, 19903), (19968, 42124), (42192, 42237), (42240, 42508), (42512, 42539), (42560, 42606),
   (42623, 42653), (42656, 42735), (42775, 42783), (42786, 42888), (42891, 42954), (42960, 42961),
   (42963, 42963), (42965, 42969), (42994, 43009), (43011, 43013), (43015, 43018), (43020, 43042),
   (43056, 43061), (43072, 43123), (43138, 43187), (43216, 43225), (43250, 43255), (43259, 43259),
   (43261, 43262), (43264, 43301), (43312, 43334), (43360, 43388), (43396, 43442), (43471, 43481),
   (43488, 43492), (43494, 43518), (43520, 43560), (43584, 43586), (43588, 43595), (43600, 43609),
   (43616, 43638), (43642, 43642), (43646, 43695), (43697, 43697), (43701, 43702), (43705, 43709),
   (43712, 43712), (43714, 43714), (43739, 43741), (43744, 43754), (43762, 43764), (43777, 43782),
   (43785, 43790), (43793, 43798), (43808, 43814), (43816, 43822), (43824, 43866), (43868, 43881),
   (43888, 44002), (44016, 44025), (44032, 55203), (55216, 55238), (55243, 55291), (63744, 64109),
   (64112, 64217), (64256, 64262), (64275, 64279), (64285, 64285), (64287, 64296), (64298, 64310),
   (64312, 64316), (64318, 64318), (64320, 64321), (64323, 64324), (64326, 64433), (64467, 64829),
   (64848, 64911), (64914, 64967), (65008, 65019), (65136, 65140), (65142, 65276), (65296, 65305),
   (65313, 65338), (65345, 65370), (65382, 65470), (65474, 65479), (65482, 65487), (65490, 65495),
   (65498, 65500), (65536, 65547), (65549, 65574), (65576, 65594), (65596, 65597), (65599, 65613),
   (65616, 65629), (65664, 65786), (65799, 65843), (65856, 65912), (65930, 65931), (66176, 66204),
   (66208, 66256), (66273, 66299), (66304, 66339), (66349, 66378), (66384, 66421), (66432, 66461),
   (66464, 66499), (66504, 66511), (66513, 66517), (66560, 66717), (66720, 66729), (66736, 66771),
   (66776, 66811), (66816, 66855), (66864, 66915), (66928, 66938), (66940, 66954), (66956, 66962),
   (66964, 66965), (66967, 66977), (66979, 66993), (66995, 67001), (67003, 67004), (67072, 67382),
   (67392, 67413), (67424, 67431), (67456, 67461), (67463, 67504), (67506, 67514), (67584, 67589),
   (67592, 67592), (67594, 67637), (67639, 67640), (67644, 67644), (67647, 67669), (67672, 67702),
   (67705, 67742), (67751, 67759), (67808, 67826), (67828, 67829), (67835, 67867), (67872, 67897),
   (67968, 68023), (68028, 68047), (68050, 68096), (68112, 68115), (68117, 68119), (68121, 68149),
   (68160, 68168), (68192, 68222), (68224, 68255), (68288, 68295), (68297, 68324), (68331, 68335),
   (68352, 68405), (68416, 68437), (68440, 68466), (68472, 68497), (68521, 68527), (68608, 68680),
   (68736, 68786), (68800, 68850), (68858, 68899), (68912, 68921), (69216, 69246), (69248, 69289),
   (69296, 69297), (69376, 69415), (69424, 69445), (69457, 69460), (69488, 69505), (69552, 69579),
   (69600, 69622), (69635, 69687), (69714, 69743), (69745, 69746), (69749, 69749), (69763, 69807),
   (69840, 69864), (69872, 69881), (69891, 69926), (69942, 69951), (69956, 69956), (69959, 69959),
   (69968, 70002), (70006, 70006), (70019, 70066), (70081, 70084), (70096, 70106), (70108, 70108),
   (70113, 70132), (70144, 70161), (70163, 70187), (70272, 70278), (70280, 70280), (70282, 70285),
   (70287, 70301), (70303, 70312), (70320, 70366), (70384, 70393), (70405, 70412), (70415, 70416),
   (70419, 70440), (70442, 70448), (70450, 70451), (70453, 70457), (70461, 70461), (70480, 70480),
   (70493, 70497), (70656, 70708), (70727, 70730), (70736, 70745), (70751, 70753), (70784, 70831),
   (70852, 70853), (70855, 70855), (70864, 70873), (71040, 71086), (71128, 71131), (71168, 71215),
   (71236, 71236), (71248, 71257), (71296, 71338), (71352, 71352), (71360, 71369), (71424, 71450),
   (71472, 71483), (71488, 71494), (71680, 71723), (71840, 71922), (71935, 71942), (71945, 71945),
   (71948, 71955), (71957, 71958), (71960, 71983), (71999, 71999), (72001, 72001), (72016, 72025),
   (72096, 72103), (72106, 72144), (72161, 72161), (72163, 72163), (72192, 72192), (72203, 72242),
   (72250, 72250), (72272, 72272), (72284, 72329), (72349, 72349), (72368, 72440), (72704, 72712),
   (72714, 72750), (72768, 72768), (72784, 72812), (72818, 72847), (72960, 72966), (72968, 72969),
   (72971, 73008), (73030, 73030), (73040, 73049), (73056, 73061), (73063, 73064), (73066, 73097),
   (73112, 73112), (73120, 73129), (73440, 73458), (73648, 73648), (73664, 73684), (73728, 74649),
   (74752, 74862), (74880, 75075), (77712, 77808), (77824, 78894), (82944, 83526), (92160, 92728),
   (92736, 92766), (92768, 92777), (92784, 92862), (92864, 92873), (92880, 92909), (92928, 92975),
   (92992, 92995), (93008, 93017), (93019, 93025), (93027, 93047), (93053, 93071), (93760, 93846),
   (93952, 94026), (94032, 94032), (94099, 94111), (94176, 94177), (94179, 94179),
   (94208, 100343), (100352, 101589), (101632, 101640), (110576, 110579), (110581, 110587),
   (110589, 110590), (110592, 110882), (110928, 110930), (110948, 110951), (110960, 111355),
   (113664, 113770), (113776, 113788), (113792, 113800), (113808, 113817), (119520, 119539),
   (119648, 119672), (119808, 119892), (119894, 119964), (119966, 119967), (119970, 119970),
   (119973, 119974), (119977, 119980), (119982, 119993), (119995, 119995), (119997, 120003),
   (120005, 120069), (120071, 120074), (120077, 120084), (120086, 120092), (120094, 120121),
   (120123, 120126), (120128, 120132), (120134, 120134), (120138, 120144), (120146, 120485),
   (120488, 120512), (120514, 120538), (120540, 120570), (120572, 120596), (120598, 120628),
   (120630, 120654), (120656, 120686), (120688, 120712), (120714, 120744), (120746, 120770),
   (120772, 120779), (120782, 120831), (122624, 122654), (123136, 123180), (123191, 123197),
   (123200, 123209), (123214, 123214), (123536, 123565), (123584, 123627), (123632, 123641),
   (124896, 124902), (124904, 124907), (124909, 124910), (124912, 124926), (124928, 125124),
   (125127, 125135), (125184, 125251), (125259, 125259), (125264, 125273), (126065, 126123),
   (126125, 126127), (126129, 126132), (126209, 126253), (126255, 126269), (126464, 126467),
   (126469, 126495), (126497, 126498), (126500, 126500), (126503, 126503), (126505, 126514),
   (126516, 126519), (126521, 126521), (126523, 126523), (126530, 126530), (126535, 126535),
   (126537, 126537), (126539, 126539), (126541, 126543), (126545, 126546), (126548, 126548),
   (126551, 126551), (126553, 126553), (126555, 126555), (126557, 126557), (126559, 126559),
   (126561, 126562), (126564, 126564), (126567, 126570), (126572, 126578), (126580, 126583),
   (126585, 126588), (126590, 126590), (126592, 126601), (126603, 126619), (126625, 126627),
   (126629, 126633), (126635, 126651), (127232, 127244), (130032, 130041), (131072, 173791),
   (173824, 177976), (177984, 178205), (178208, 183969), (183984, 191456), (194560, 195101),
   (196608, 201546)]

/-- Membership of `n` in an ascending list of inclusive ranges, stopping
at the first range starting beyond `n`. -/
def inRanges (n : Nat) : List (Nat × Nat) → Bool
  | [] => false
  | (lo, hi) :: rest => if n < lo then false else if n ≤ hi then true else inRanges n rest

/-- Python `c.isalnum()` on a single character: Unicode-aware, per
`alnumRanges`. -/
def pyIsAlnum (c : Char) : Bool := inRanges c.toNat alnumRanges

/-- Python `next_token and next_token[0].isalnum()` (inference.py line 99):
false on the empty string, else whether the first character is
alphanumeric in Python's Unicode-aware sense. -/
def firstAlnum (t : List Char) : Bool :=
  match t with
  | c :: _ => pyIsAlnum c
  | [] => false

/-- The `new_tokens` list built by the loop of `format_latex`
(inference.py lines 90-104): walk (current, next) pairs, always emit the
current token; after the line-break token emit a newline; after a token
starting with the command escape whose successor starts alphanumeric emit
a single space; the final token is emitted unmodified. -/
def new_tokens : List (List Char) → List (List Char)
  | [] => []
  | [t] => [t]
  | t :: next :: rest =>
      if t = lbTok then t :: ['\n'] :: new_tokens (next :: rest)
      else if startsWithBackslash t && firstAlnum next then
        t :: [' '] :: new_tokens (next :: rest)
      else t :: new_tokens (next :: rest)

/-- `format_latex` on the character list of the input
(inference.py lines 72-106): empty input maps to empty output, else split
on whitespace, walk the tokens building `new_tokens`, and join. -/
def format_chars (latex : List Char) : List Char :=
  if latex = [] then []
  else
    let tokens := splitWs latex
    if tokens = [] then []
    else (new_tokens tokens).flatten

/-- Python `format_latex : str -> str`. -/
def format_latex (s : String) : String := String.mk (format_chars s.data)

/-! ## Strict UTF-8 decoding (`bytes.decode('utf-8')`) -/

/-- A UTF-8 continuation byte, `0x80..0xBF`. -/
def contByte (b : Nat) : Bool := 128 ≤ b && b ≤ 191

/-- Decode the first UTF-8 code point: given the leading byte `b` and the
remaining bytes, return the code point value and the bytes left over, or
`none` when the sequence is invalid at `b` (stray continuation byte,
overlong encoding, surrogate range, value above `U+10FFFF`, or truncated
sequence) — exactly the sequences Python's strict `utf-8` codec
rejects. -/
def utf8Head (b : Nat) (rest : List Nat) : Option (Nat × List Nat) :=
  if b ≤ 127 then some (b, rest)
  else if b ≤ 193 then none
  else if b ≤ 223 then
    match rest with
    | b2 :: r =>
        if contByte b2 then some ((b - 192) * 64 + (b2 - 128), r) else none
    | [] => none
  else if b ≤ 239 then
    match rest with
    | b2 :: b3 :: r =>
        if (if b = 224 then 160 ≤ b2 && b2 ≤ 191
            else if b = 237 then 128 ≤ b2 && b2 ≤ 159
            else contByte b2) && contByte b3 then
          some ((b - 224) * 4096 + (b2 - 128) * 64 + (b3 - 128), r)
        else none
    | _ => none
  else if b ≤ 244 then
    match rest with
    | b2 :: b3 :: b4 :: r =>
        if (if b = 240 then 144 ≤ b2 && b2 ≤ 191
            else if b = 244 then 128 ≤ b2 && b2 ≤ 143
            else contByte b2) && contByte b3 && contByte b4 then
          some ((b - 240) * 262144 + (b2 - 128) * 4096 + (b3 - 128) * 64 + (b4 - 128), r)
        else none
    | _ => none
  else none

/-- Fuel-indexed worker for `utf8Decode`. Each decoding step consumes at
least one byte and exactly one unit of fuel, so with fuel equal to the
byte count the out-of-fuel case is unreachable. -/
def utf8DecodeF : Nat → List Nat → Option (List Char)
  | _, [] => some []
  | 0, _ :: _ => none
  | fuel + 1, b :: rest =>
      match utf8Head b rest with
      | some (n, rem) => (utf8DecodeF fuel rem).map (fun cs => Char.ofNat n :: cs)
      | none => none

/-- Strict UTF-8 decoder over the received bytes, mirroring Python's
`bytes.decode('utf-8')`: produces the decoded code points, or `none`
where Python raises `UnicodeDecodeError`. -/
def utf8Decode (l : List Nat) : Option (List Char) := utf8DecodeF l.length l

/-- `data.decode('utf-8')` as used at inference.py line 197: success gives
the decoded string, failure models the raised `UnicodeDecodeError` (the
text of the exception message is immaterial; only the fact of failure is
inspected by the caller's `except` clause). -/
def pyDecodeUtf8 (data : List Nat) : Except String String :=
  match utf8Decode data with
  | some cs => Except.ok (String.mk cs)
  | none => Except.error "utf-8 codec cannot decode bytes"

/-! ## `str.strip()` and `pathlib` path existence -/

/-- Python `str.strip()` on a character list: drop leading and trailing
whitespace. -/
def stripChars (l : List Char) : List Char :=
  ((l.dropWhile pyIsSpace).reverse.dropWhile pyIsSpace).reverse

/-- Python `s.strip()` (inference.py line 197). -/
def pyStrip (s : String) : String := String.mk (stripChars s.data)

/-- `pathlib.Path(s)` collapses the empty string to `"."`
(`Path('') == Path('.')`); every other string is passed through, further
pathlib normalisation being absorbed by the ambient filesystem
predicate. -/
def pathlibNorm (s : String) : String := if s = "" then "." else s

/-- `Path(image_path).exists()` (inference.py line 199) against an
abstract filesystem `fs` giving existence of each (normalised) path. -/
def path_exists (fs : String → Bool) (s : String) : Bool := fs (pathlibNorm s)

/-! ## The inference pipeline and the connection handler -/

/-- `inference(image_path, ...)` (inference.py lines 109-129): run the
opaque recogniser (image open, preprocessing, beam-search generation,
token decoding — abstract, since the model is an external artifact), then
apply `format_latex` to the raw decoded text. An `error` models any
exception raised inside (unreadable image, decode failure, ...). -/
def inference (recognize : String → Except String String) (image_path : String) :
    Except String String :=
  match recognize image_path with
  | Except.ok raw => Except.ok (format_latex raw)
  | Except.error e => Except.error e

/-- Observable outcome of serving one accepted connection:
the response sent (if any), whether the inference pipeline was entered,
and whether the connection was closed (the `finally` at inference.py
line 214 always runs, so this is invariably `true`). `sendall` is
modelled as succeeding. -/
structure ConnResult where
  response : Option String
  modelInvoked : Bool
  connClosed : Bool
deriving DecidableEq, Repr

deriving instance DecidableEq for Except

/-- The body of the accept loop for one connection
(inference.py lines 190-215): empty payload → no reply; UTF-8 decode
failure → caught, `ERROR: `-prefixed reply; stripped path that fails the
existence check → fixed not-found reply; otherwise run the inference
pipeline, replying with its text on success and with an
`ERROR: `-prefixed message when it raises. The connection is closed in
every case. -/
def handle_connection (fs : String → Bool) (recognize : String → Except String String)
    (data : List Nat) : ConnResult :=
  if data = [] then { response := none, modelInvoked := false, connClosed := true }
  else
    match pyDecodeUtf8 data with
    | Except.error e =>
        { response := some ("ERROR: " ++ e), modelInvoked := false, connClosed := true }
    | Except.ok s =>
        let image_path := pyStrip s
        if path_exists fs image_path = false then
          { response := some "ERROR: Image not found", modelInvoked := false, connClosed := true }
        else
          match inference recognize image_path with
          | Except.ok latex =>
              { response := some latex, modelInvoked := true, connClosed := true }
          | Except.error e =>
              { response := some ("ERROR: " ++ e), modelInvoked := true, connClosed := true }

/-- The accept loop (inference.py lines 189-215) over the sequence of
payloads received on successive accepted connections: each connection is
served to completion before the next is accepted. -/
def run_loop (fs : String → Bool) (recognize : String → Except String String) :
    List (List Nat) → List ConnResult
  | [] => []
  | d :: ds => handle_connection fs recognize d :: run_loop fs recognize ds

/-- `r` begins with the fixed error marker `ERROR:`. -/
def startsWithERROR (r : String) : Bool :=
  match r.data with
  | 'E' :: 'R' :: 'R' :: 'O' :: 'R' :: ':' :: _ => true
  | _ => false

/-! ## Endpoint artifacts and `cleanup` (inference.py lines 132-141) -/

/-- Presence of the two endpoint artifacts, the rendezvous socket file and
the PID record file. -/
structure Artifacts where
  sockExists : Bool
  pidExists : Bool
deriving DecidableEq, Repr

/-- `os.unlink` on one file: removes it when present, raises `OSError`
when absent. -/
def os_unlink (present : Bool) : Except Unit Bool :=
  if present then Except.ok false else Except.error ()

/-- `cleanup()` (inference.py lines 132-141): unlink the socket file and
the PID file, each wrapped in `try/except OSError: pass`. The outer
`Except` layer records an uncaught exception, which never occurs. -/
def cleanup (a : Artifacts) : Except Unit Artifacts :=
  let a1 : Artifacts :=
    match os_unlink a.sockExists with
    | Except.ok b => { a with sockExists := b }
    | Except.error _ => a
  let a2 : Artifacts :=
    match os_unlink a1.pidExists with
    | Except.ok b => { a1 with pidExists := b }
    | Except.error _ => a1
  Except.ok a2

/-! ## The startup/serving trace of `run_server` (inference.py lines 151-217) -/

/-- Fixed rendezvous socket path (inference.py line 38). -/
def SOCKET_PATH : String := "/tmp/mathsnip_texo.sock"

/-- Fixed PID record path (inference.py line 39). -/
def PID_FILE : String := "/tmp/mathsnip_texo.pid"

/-- One observable effect of `run_server`, in program order. -/
inductive SEv where
  | installSignalHandlers : SEv
  | cleanupStale : SEv
  | writePid : SEv
  | loadModel : SEv
  | stderrMsg : String → SEv
  | warmupDone : Bool → SEv
  | bindSocket : SEv
  | listenSocket : SEv
  | stdoutLine : String → SEv
  | acceptConn : ConnResult → SEv
deriving DecidableEq, Repr

/-- The ordered effect trace of one daemon run of `run_server`
(inference.py lines 151-217): signal handlers, stale-artifact cleanup,
PID write, model load, warm-up attempt (`warmupOk` records whether the
warm-up inference succeeded; its failure is caught and logged), socket
bind and listen, the readiness marker on standard output, then the accept
loop over the received payloads. All diagnostics go to standard error;
the only write to standard output is the readiness marker. -/
def run_server_trace (warmupOk : Bool) (fs : String → Bool)
    (recognize : String → Except String String) (reqs : List (List Nat)) : List SEv :=
  [SEv.installSignalHandlers, SEv.cleanupStale, SEv.writePid, SEv.loadModel,
   SEv.stderrMsg "Warming up model...", SEv.warmupDone warmupOk,
   SEv.stderrMsg (if warmupOk then "Warmup complete" else "Warmup failed"),
   SEv.bindSocket, SEv.listenSocket,
   SEv.stdoutLine "READY",
   SEv.stderrMsg ("Server listening on " ++ SOCKET_PATH)]
  ++ reqs.map (fun d => SEv.acceptConn (handle_connection fs recognize d))

/-- Recognises the readiness marker: the line `READY` on standard output. -/
def isReadyLine : SEv → Bool
  | SEv.stdoutLine s => s == "READY"
  | _ => false

/-! ## Specification-side measuring devices for the formatter claims -/

/-- Two adjacent characters are not both whitespace. -/
def noWsPair (a b : Char) : Prop := ¬(pyIsSpace a = true ∧ pyIsSpace b = true)

/-- The first character (if any) is not whitespace. -/
def headNonWs (l : List Char) : Bool :=
  match l.head? with
  | some c => !(pyIsSpace c)
  | none => true

/-- Number of token positions after which the formatter's space rule
fires: the token starts with the command escape, is not the line-break
token, and its successor starts with an alphanumeric character. -/
def spaceSlots : List (List Char) → Nat
  | t :: next :: rest =>
      (if t ≠ lbTok ∧ startsWithBackslash t = true ∧ firstAlnum next = true then 1 else 0)
        + spaceSlots (next :: rest)
  | _ => 0

/-- No two adjacent space characters (no raw multi-space run). -/
def noMultiSpaceRun : List Char → Bool
  | a :: b :: rest => !(a == ' ' && b == ' ') && noMultiSpaceRun (b :: rest)
  | _ => true

/-- Some line-break token has a successor, i.e. would receive an inserted
newline ("needs insertion"). -/
def lbNeedsInsertion : List (List Char) → Bool
  | t :: next :: rest => (t == lbTok) || lbNeedsInsertion (next :: rest)
  | _ => false

/-- The byte values of ASCII whitespace, as they appear in a payload that
"consists only of whitespace". -/
def wsBytes : List Nat := [9, 10, 11, 12, 13, 32]

/-! ## Helper lemmas on the formatter -/

theorem format_chars_eq (s : List Char) :
    format_chars s = (new_tokens (splitWs s)).flatten := by
  unfold format_chars
  by_cases hs : s = []
  · subst hs; rfl
  · simp only [if_neg hs]
    by_cases ht : splitWs s = []
    · rw [ht]; rfl
    · simp [ht]

theorem splitWsAux_good :
    ∀ (s acc : List Char), (∀ c ∈ acc, pyIsSpace c = false) →
      ∀ t ∈ splitWsAux s acc, t ≠ [] ∧ ∀ c ∈ t, pyIsSpace c = false := by
  intro s
  induction s with
  | nil =>
      intro acc hacc t ht
      by_cases h : acc = []
      · simp [splitWsAux, h] at ht
      · simp only [splitWsAux, if_neg h, List.mem_singleton] at ht
        subst ht
        refine ⟨by simpa [List.reverse_eq_nil_iff] using h, ?_⟩
        intro c hc
        exact hacc c (List.mem_reverse.mp hc)
  | cons a s ih =>
      intro acc hacc t ht
      by_cases hws : pyIsSpace a = true
      · by_cases h : acc = []
        · rw [show splitWsAux (a :: s) acc = splitWsAux s [] by
            simp [splitWsAux, hws, h]] at ht
          exact ih [] (by simp) t ht
        · rw [show splitWsAux (a :: s) acc = acc.reverse :: splitWsAux s [] by
            simp [splitWsAux, hws, h]] at ht
          rcases List.mem_cons.mp ht with h1 | h1
          · subst h1
            refine ⟨by simpa [List.reverse_eq_nil_iff] using h, ?_⟩
            intro c hc
            exact hacc c (List.mem_reverse.mp hc)
          · exact ih [] (by simp) t h1
      · rw [show splitWsAux (a :: s) acc = splitWsAux s (a :: acc) by
            simp [splitWsAux, hws]] at ht
        refine ih (a :: acc) ?_ t ht
        intro c hc
        rcases List.mem_cons.mp hc with h1 | h1
        · subst h1; simpa using hws
        · exact hacc c h1

theorem splitWs_good (s : List Char) :
    ∀ t ∈ splitWs s, t ≠ [] ∧ ∀ c ∈ t, pyIsSpace c = false :=
  splitWsAux_good s [] (by simp)

/-- Emitting the `new_tokens` of a token list splits at any nonempty
suffix of the input tokens: the part coming from the preceding tokens is
some prefix of the emitted list. -/
theorem new_tokens_append :
    ∀ (pre rest : List (List Char)), rest ≠ [] →
      ∃ emitted, new_tokens (pre ++ rest) = emitted ++ new_tokens rest := by
  intro pre
  induction pre with
  | nil => intro rest _; exact ⟨[], rfl⟩
  | cons t pre' ih =>
      intro rest h
      obtain ⟨u, us, hu⟩ : ∃ u us, pre' ++ rest = u :: us := by
        cases hpr : pre' ++ rest with
        | nil => exact absurd (List.append_eq_nil.mp hpr).2 h
        | cons u us => exact ⟨u, us, rfl⟩
      obtain ⟨em, hem⟩ := ih rest h
      have hstep : ∃ sep : List (List Char),
          new_tokens (t :: u :: us) = t :: (sep ++ new_tokens (u :: us)) := by
        by_cases h1 : t = lbTok
        · exact ⟨[['\n']], by simp [new_tokens, h1]⟩
        · by_cases h2 : (startsWithBackslash t && firstAlnum u) = true
          · exact ⟨[[' ']], by simp [new_tokens, h1, h2]⟩
          · exact ⟨[], by simp [new_tokens, h1, h2]⟩
      obtain ⟨sep, hsep⟩ := hstep
      refine ⟨t :: (sep ++ em), ?_⟩
      rw [List.cons_append, hu, hsep, ← hu, hem]
      simp

theorem chain'_of_nonws (l : List Char) (h : ∀ c ∈ l, pyIsSpace c = false) :
    List.Chain' noWsPair l := by
  induction l with
  | nil => simp
  | cons a l ih =>
      rw [List.chain'_cons']
      refine ⟨?_, ih fun c hc => h c (List.mem_cons_of_mem _ hc)⟩
      intro y _ hy
      have ha := h a (List.mem_cons_self a l)
      rw [ha] at hy
      exact absurd hy.1 (by simp)

theorem chain'_block (t sep J : List Char)
    (ht : ∀ c ∈ t, pyIsSpace c = false)
    (hsep : List.Chain' noWsPair sep)
    (hC : List.Chain' noWsPair J)
    (hHead : ∀ c, J.head? = some c → pyIsSpace c = false) :
    List.Chain' noWsPair (t ++ (sep ++ J)) := by
  rw [List.chain'_append]
  refine ⟨chain'_of_nonws t ht, ?_, ?_⟩
  · rw [List.chain'_append]
    refine ⟨hsep, hC, ?_⟩
    intro x _ y hy hxy
    have := hHead y hy
    rw [this] at hxy
    exact absurd hxy.2 (by simp)
  · intro x hx y _ hxy
    have := ht x (List.mem_of_mem_getLast? hx)
    rw [this] at hxy
    exact absurd hxy.1 (by simp)

/-- Core structural invariant of the formatter output: on tokens that are
nonempty and whitespace-free (as `splitWs` produces), the joined
`new_tokens` list has no two adjacent whitespace characters, is nonempty
when there is at least one token, and neither starts nor ends with
whitespace. -/
theorem flatten_new_tokens_good :
    ∀ (toks : List (List Char)),
      (∀ t ∈ toks, t ≠ [] ∧ ∀ c ∈ t, pyIsSpace c = false) →
      List.Chain' noWsPair (new_tokens toks).flatten ∧
      (toks ≠ [] → (new_tokens toks).flatten ≠ []) ∧
      (∀ c, ((new_tokens toks).flatten).head? = some c → pyIsSpace c = false) ∧
      (∀ c, ((new_tokens toks).flatten).getLast? = some c → pyIsSpace c = false) := by
  intro toks
  induction toks with
  | nil => intro _; simp [new_tokens]
  | cons t rest ih =>
      intro h
      obtain ⟨htne, htc⟩ := h t (List.mem_cons_self t rest)
      obtain ⟨a, t', hte⟩ : ∃ a t', t = a :: t' := by
        cases t with
        | nil => exact absurd rfl htne
        | cons a t' => exact ⟨a, t', rfl⟩
      cases rest with
      | nil =>
          have hflat : (new_tokens [t]).flatten = t := by simp [new_tokens]
          refine ⟨?_, ?_, ?_, ?_⟩
          · rw [hflat]; exact chain'_of_nonws t htc
          · intro _; rw [hflat]; exact htne
          · intro c hc
            rw [hflat] at hc
            exact htc c (List.mem_of_mem_head? hc)
          · intro c hc
            rw [hflat] at hc
            exact htc c (List.mem_of_mem_getLast? hc)
      | cons u us =>
          have hrest : ∀ t' ∈ u :: us, t' ≠ [] ∧ ∀ c ∈ t', pyIsSpace c = false :=
            fun t' ht' => h t' (List.mem_cons_of_mem _ ht')
          obtain ⟨ihC, ihNe, ihH, ihL⟩ := ih hrest
          have hJne : (new_tokens (u :: us)).flatten ≠ [] := ihNe (by simp)
          have hstep : ∃ sep : List Char,
              (new_tokens (t :: u :: us)).flatten
                = t ++ (sep ++ (new_tokens (u :: us)).flatten) ∧
              List.Chain' noWsPair sep := by
            by_cases h1 : t = lbTok
            · exact ⟨['\n'], by simp [new_tokens, h1], List.chain'_singleton _⟩
            · by_cases h2 : (startsWithBackslash t && firstAlnum u) = true
              · exact ⟨[' '], by simp [new_tokens, h1, h2], List.chain'_singleton _⟩
              · exact ⟨[], by simp [new_tokens, h1, h2], by simp⟩
          obtain ⟨sep, hflat, hsepC⟩ := hstep
          refine ⟨?_, ?_, ?_, ?_⟩
          · rw [hflat]; exact chain'_block t sep _ htc hsepC ihC ihH
          · intro _; rw [hflat, hte]; simp
          · intro c hc
            rw [hflat, hte, List.cons_append, List.head?_cons] at hc
            have hca : c = a := by simpa using hc.symm
            rw [hca]
            exact htc a (by rw [hte]; exact List.mem_cons_self a t')
          · intro c hc
            rw [hflat,
              List.getLast?_append_of_ne_nil _
                (fun hn => hJne (List.append_eq_nil.mp hn).2),
              List.getLast?_append_of_ne_nil _ hJne] at hc
            exact ihL c hc

/-- The space characters of the formatter output are exactly the inserted
separators: one per token position at which the space rule fires. -/
theorem count_space_flatten :
    ∀ (toks : List (List Char)),
      (∀ t ∈ toks, ∀ c ∈ t, pyIsSpace c = false) →
      ((new_tokens toks).flatten).count ' ' = spaceSlots toks := by
  intro toks
  induction toks with
  | nil => intro _; simp [new_tokens, spaceSlots]
  | cons t rest ih =>
      intro h
      have htc := h t (List.mem_cons_self t rest)
      have hts : ¬ (' ' ∈ t) := fun hsp => absurd (htc ' ' hsp) (by decide)
      have ht0 : t.count ' ' = 0 := List.count_eq_zero.mpr hts
      cases rest with
      | nil => simp [new_tokens, spaceSlots, ht0]
      | cons u us =>
          have hrest : ∀ t' ∈ u :: us, ∀ c ∈ t', pyIsSpace c = false :=
            fun t' ht' => h t' (List.mem_cons_of_mem _ ht')
          have ihr := ih hrest
          by_cases h1 : t = lbTok
          · rw [show new_tokens (t :: u :: us) = t :: ['\n'] :: new_tokens (u :: us) from by
              simp [new_tokens, h1]]
            rw [List.flatten_cons, List.flatten_cons, List.count_append, List.count_append,
              ht0, ihr]
            simp [spaceSlots, h1]
          · by_cases h2 : (startsWithBackslash t && firstAlnum u) = true
            · rw [show new_tokens (t :: u :: us) = t :: [' '] :: new_tokens (u :: us) from by
                simp [new_tokens, h1, h2]]
              rw [List.flatten_cons, List.flatten_cons, List.count_append, List.count_append,
                ht0, ihr]
              obtain ⟨hb1, hb2⟩ := Bool.and_eq_true_iff.mp h2
              simp [spaceSlots, h1, hb1, hb2]
            · rw [show new_tokens (t :: u :: us) = t :: new_tokens (u :: us) from by
                simp [new_tokens, h1, h2]]
              rw [List.flatten_cons, List.count_append, ht0, ihr]
              have hno : ¬(t ≠ lbTok ∧ startsWithBackslash t = true ∧ firstAlnum u = true) :=
                fun hp => h2 (Bool.and_eq_true_iff.mpr ⟨hp.2.1, hp.2.2⟩)
              simp [spaceSlots, hno]

/-! ## Equation lemmas for the connection handler -/

theorem handle_connection_empty (fs : String → Bool)
    (recognize : String → Except String String) :
    handle_connection fs recognize []
      = { response := none, modelInvoked := false, connClosed := true } := rfl

theorem handle_connection_decode_err (fs : String → Bool)
    (recognize : String → Except String String) (data : List Nat) (msg : String)
    (hne : data ≠ []) (h : pyDecodeUtf8 data = Except.error msg) :
    handle_connection fs recognize data
      = { response := some ("ERROR: " ++ msg), modelInvoked := false, connClosed := true } := by
  unfold handle_connection
  rw [if_neg hne, h]

theorem handle_connection_no_path (fs : String → Bool)
    (recognize : String → Except String String) (data : List Nat) (s : String)
    (hne : data ≠ []) (h : pyDecodeUtf8 data = Except.ok s)
    (hex : path_exists fs (pyStrip s) = false) :
    handle_connection fs recognize data
      = { response := some "ERROR: Image not found", modelInvoked := false,
          connClosed := true } := by
  unfold handle_connection
  rw [if_neg hne, h]
  simp [hex]

theorem handle_connection_infer (fs : String → Bool)
    (recognize : String → Except String String) (data : List Nat) (s : String)
    (hne : data ≠ []) (h : pyDecodeUtf8 data = Except.ok s)
    (hex : path_exists fs (pyStrip s) = true) :
    handle_connection fs recognize data
      = match inference recognize (pyStrip s) with
        | Except.ok latex => { response := some latex, modelInvoked := true, connClosed := true }
        | Except.error e =>
            { response := some ("ERROR: " ++ e), modelInvoked := true, connClosed := true } := by
  unfold handle_connection
  rw [if_neg hne, h]
  simp [hex]

theorem run_loop_cons (fs : String → Bool) (recognize : String → Except String String)
    (d : List Nat) (ds : List (List Nat)) :
    run_loop fs recognize (d :: ds)
      = handle_connection fs recognize d :: run_loop fs recognize ds := rfl

/-! ## UTF-8 and strip lemmas for whitespace payloads -/

theorem utf8Decode_ascii :
    ∀ data : List Nat, (∀ b ∈ data, b ≤ 127) →
      utf8Decode data = some (data.map Char.ofNat) := by
  intro data
  induction data with
  | nil => intro _; rfl
  | cons b rest ih =>
      intro h
      have hb : b ≤ 127 := h b (List.mem_cons_self b rest)
      have hstep : utf8Decode (b :: rest) = (utf8Decode rest).map (fun cs => Char.ofNat b :: cs) := by
        unfold utf8Decode
        show utf8DecodeF (rest.length + 1) (b :: rest) = _
        rw [utf8DecodeF]
        unfold utf8Head
        rw [if_pos hb]
      rw [hstep, ih (fun x hx => h x (List.mem_cons_of_mem _ hx))]
      rfl

theorem strip_all_ws (l : List Char) (h : ∀ c ∈ l, pyIsSpace c = true) :
    stripChars l = [] := by
  unfold stripChars
  rw [List.dropWhile_eq_nil_iff.mpr h]
  rfl

theorem ws_byte_char (b : Nat) (h : b ∈ wsBytes) : pyIsSpace (Char.ofNat b) = true := by
  simp [wsBytes] at h
  rcases h with rfl | rfl | rfl | rfl | rfl | rfl <;> decide

/-! ## Claim C5 -/

/-- C5 (counterexample): when the line-break token is the final (here:
only) token of the input, the formatter emits it unmodified — the output
is exactly the two backslashes, and no newline follows the line-break
token anywhere in the output. This refutes the claim's "including when
the line-break token is the final token of the input". -/
theorem format_newline_after_linebreak_counterexample :
    format_chars ['\\', '\\'] = ['\\', '\\'] ∧
    ¬ ∃ a b : List Char, format_chars ['\\', '\\'] = a ++ '\\' :: '\\' :: '\n' :: b := by
  refine ⟨by decide, ?_⟩
  rintro ⟨a, b, hab⟩
  rw [show format_chars ['\\', '\\'] = ['\\', '\\'] from by decide] at hab
  have hlen := congrArg List.length hab
  simp [List.length_append] at hlen
  omega

/-- C5 (amended): every line-break token of the input that has a
successor token is, in the formatter's output, immediately followed by a
single inserted newline (the next character after the newline is the
non-whitespace first character of the following emitted token); a
line-break token that is the final token of the input is appended
unmodified, with no newline after it. -/
theorem format_newline_after_linebreak (s : List Char) (pre suf : List (List Char))
    (h : splitWs s = pre ++ lbTok :: suf) :
    (suf ≠ [] →
      ∃ a, format_chars s = a ++ '\\' :: '\\' :: '\n' :: (new_tokens suf).flatten ∧
        headNonWs ((new_tokens suf).flatten) = true) ∧
    (suf = [] → ∃ a, format_chars s = a ++ ['\\', '\\']) := by
  constructor
  · intro hsuf
    obtain ⟨u, us, rfl⟩ : ∃ u us, suf = u :: us := by
      cases suf with
      | nil => exact absurd rfl hsuf
      | cons u us => exact ⟨u, us, rfl⟩
    obtain ⟨em, hem⟩ := new_tokens_append pre (lbTok :: u :: us) (by simp)
    have hlb : new_tokens (lbTok :: u :: us) = lbTok :: ['\n'] :: new_tokens (u :: us) := by
      simp [new_tokens]
    refine ⟨em.flatten, ?_, ?_⟩
    · rw [format_chars_eq, h, hem, hlb]
      simp [lbTok]
    · have hgood : ∀ t ∈ u :: us, t ≠ [] ∧ ∀ c ∈ t, pyIsSpace c = false := by
        intro t ht
        apply splitWs_good s
        rw [h]
        exact List.mem_append_right _ (List.mem_cons_of_mem _ ht)
      obtain ⟨_, hne, hH, _⟩ := flatten_new_tokens_good (u :: us) hgood
      cases hfl : (new_tokens (u :: us)).flatten with
      | nil => exact absurd hfl (hne (by simp))
      | cons c cs =>
          have hc := hH c (by rw [hfl]; rfl)
          simp [headNonWs, hfl, hc]
  · intro hsuf
    subst hsuf
    obtain ⟨em, hem⟩ := new_tokens_append pre [lbTok] (by simp)
    refine ⟨em.flatten, ?_⟩
    rw [format_chars_eq, h, hem]
    simp [new_tokens, lbTok]

/-- C5 (witness): the amended theorem applied to the concrete input
`"\\ x"`, whose token list is the line-break token followed by `x`. -/
theorem format_newline_after_linebreak_witness :
    (splitWs ['\\', '\\', ' ', 'x'] = [] ++ lbTok :: [['x']] ∧
      ([['x']] : List (List Char)) ≠ []) ∧
    (∃ a, format_chars ['\\', '\\', ' ', 'x']
        = a ++ '\\' :: '\\' :: '\n' :: (new_tokens [['x']]).flatten ∧
      headNonWs ((new_tokens [['x']]).flatten) = true) :=
  ⟨⟨by decide, by decide⟩,
    (format_newline_after_linebreak ['\\', '\\', ' ', 'x'] [] [['x']] (by decide)).1
      (by decide)⟩

/-! ## Claim C6 -/

/-- C6: the formatter inserts exactly one space after a token iff the
token begins with the command escape, is not the line-break token, and
has a successor whose first character is alphanumeric. First conjunct:
the number of space characters in the output equals the number of token
positions where that condition holds (tokens themselves are
whitespace-free, so every output space is an inserted one, and no other
position receives a space). Second conjunct: at each such position the
space is inserted immediately after the command token. -/
theorem format_space_insertion (s : List Char) :
    (format_chars s).count ' ' = spaceSlots (splitWs s) ∧
    ∀ pre t next suf, splitWs s = pre ++ t :: next :: suf →
      startsWithBackslash t = true → t ≠ lbTok → firstAlnum next = true →
      ∃ a, format_chars s = a ++ t ++ ' ' :: (new_tokens (next :: suf)).flatten := by
  constructor
  · rw [format_chars_eq]
    exact count_space_flatten (splitWs s) (fun t ht => (splitWs_good s t ht).2)
  · intro pre t next suf h hsb hlb hfa
    obtain ⟨em, hem⟩ := new_tokens_append pre (t :: next :: suf) (by simp)
    have hsp : new_tokens (t :: next :: suf) = t :: [' '] :: new_tokens (next :: suf) := by
      simp [new_tokens, hlb, hsb, hfa]
    refine ⟨em.flatten, ?_⟩
    rw [format_chars_eq, h, hem, hsp]
    simp

/-- C6 (witness): the insertion direction applied to `"\alpha é"`:
the command token `\alpha` followed by the token `é` — alphanumeric in
Python's Unicode-aware sense, though outside ASCII — receives exactly one
inserted space. -/
theorem format_space_insertion_witness :
    (splitWs ['\\', 'a', 'l', 'p', 'h', 'a', ' ', 'é']
        = [] ++ ['\\', 'a', 'l', 'p', 'h', 'a'] :: ['é'] :: [] ∧
      startsWithBackslash ['\\', 'a', 'l', 'p', 'h', 'a'] = true ∧
      ['\\', 'a', 'l', 'p', 'h', 'a'] ≠ lbTok ∧ firstAlnum ['é'] = true) ∧
    ∃ a, format_chars ['\\', 'a', 'l', 'p', 'h', 'a', ' ', 'é']
        = a ++ ['\\', 'a', 'l', 'p', 'h', 'a'] ++ ' ' :: (new_tokens [['é']]).flatten :=
  ⟨⟨by decide, by decide, by decide, by decide⟩,
    (format_space_insertion ['\\', 'a', 'l', 'p', 'h', 'a', ' ', 'é']).2
      [] ['\\', 'a', 'l', 'p', 'h', 'a'] ['é'] [] (by decide) (by decide) (by decide)
      (by decide)⟩

/-! ## Claim C7 -/

/-- C7: the formatter is idempotent on already-correctly-spaced inputs.
"Already-correctly-spaced" is formalised as: the formatter leaves the
input unchanged (its spacing is already exactly what the formatter
produces); the claim's further provisos — no raw multi-space runs, no
line-break token needing (repeated) insertion — are carried as
hypotheses mirroring the claim's class. On that class,
`format (format x) = format x`. -/
theorem format_idempotent_on_correctly_spaced (s : List Char)
    (h1 : format_chars s = s) (h2 : noMultiSpaceRun s = true)
    (h3 : lbNeedsInsertion (splitWs s) = false) :
    format_chars (format_chars s) = format_chars s := by
  rw [h1, h1]

/-- C7 (witness): `"\alpha x"` is already correctly spaced (the formatter
fixes it), has no multi-space run and no line-break token; idempotence
holds there. -/
theorem format_idempotent_on_correctly_spaced_witness :
    (format_chars ['\\', 'a', 'l', 'p', 'h', 'a', ' ', 'x']
        = ['\\', 'a', 'l', 'p', 'h', 'a', ' ', 'x'] ∧
      noMultiSpaceRun ['\\', 'a', 'l', 'p', 'h', 'a', ' ', 'x'] = true ∧
      lbNeedsInsertion (splitWs ['\\', 'a', 'l', 'p', 'h', 'a', ' ', 'x']) = false) ∧
    format_chars (format_chars ['\\', 'a', 'l', 'p', 'h', 'a', ' ', 'x'])
      = format_chars ['\\', 'a', 'l', 'p', 'h', 'a', ' ', 'x'] :=
  ⟨⟨by decide, by decide, by decide⟩,
    format_idempotent_on_correctly_spaced ['\\', 'a', 'l', 'p', 'h', 'a', ' ', 'x']
      (by decide) (by decide) (by decide)⟩

/-! ## Claim C9 -/

/-- C9: for every input, the formatter's output contains no two adjacent
whitespace characters, and neither begins nor ends with whitespace —
every inserted space or newline sits between two non-whitespace
characters of adjacent output tokens. -/
theorem format_output_no_adjacent_whitespace (s : List Char) :
    List.Chain' noWsPair (format_chars s) ∧
    (∀ c, (format_chars s).head? = some c → pyIsSpace c = false) ∧
    (∀ c, (format_chars s).getLast? = some c → pyIsSpace c = false) := by
  rw [format_chars_eq]
  obtain ⟨h1, _, h3, h4⟩ := flatten_new_tokens_good (splitWs s) (splitWs_good s)
  exact ⟨h1, h3, h4⟩

/-- C9 (witness): on the input `"a b"` the output starts with the
non-whitespace character `a`. -/
theorem format_output_no_adjacent_whitespace_witness :
    (format_chars ['a', ' ', 'b']).head? = some 'a' ∧ pyIsSpace 'a' = false :=
  ⟨by decide,
    (format_output_no_adjacent_whitespace ['a', ' ', 'b']).2.1 'a' (by decide)⟩

/-! ## Claim C1 -/

/-- C1: any exception during request processing — UTF-8 decoding of the
payload, or the inference pipeline (image loading included) — is caught
by the connection handler, answered with a response that begins with the
fixed `ERROR:` marker, the connection is closed, and the accept loop goes
on to serve the remaining connections (the handler is total: no exception
escapes to terminate the loop). -/
theorem error_containment (fs : String → Bool)
    (recognize : String → Except String String) (data : List Nat) (msg : String)
    (hne : data ≠ [])
    (hex : pyDecodeUtf8 data = Except.error msg ∨
      ∃ s, pyDecodeUtf8 data = Except.ok s ∧ path_exists fs (pyStrip s) = true ∧
        inference recognize (pyStrip s) = Except.error msg) :
    (handle_connection fs recognize data).response = some ("ERROR: " ++ msg) ∧
    startsWithERROR ("ERROR: " ++ msg) = true ∧
    (handle_connection fs recognize data).connClosed = true ∧
    ∀ ds, run_loop fs recognize (data :: ds)
        = handle_connection fs recognize data :: run_loop fs recognize ds := by
  refine ⟨?_, rfl, ?_, fun ds => rfl⟩
  · rcases hex with hdec | ⟨s, hok, hexists, hinf⟩
    · rw [handle_connection_decode_err fs recognize data msg hne hdec]
    · rw [handle_connection_infer fs recognize data s hne hok hexists, hinf]
  · rcases hex with hdec | ⟨s, hok, hexists, hinf⟩
    · rw [handle_connection_decode_err fs recognize data msg hne hdec]
    · rw [handle_connection_infer fs recognize data s hne hok hexists, hinf]

/-- C1 (witness): the payload `0xFF` is invalid UTF-8; the handler
answers with the `ERROR:`-prefixed decode-failure message. -/
theorem error_containment_witness :
    (([255] : List Nat) ≠ []) ∧
    (handle_connection (fun _ => false) (fun _ => Except.ok "") [255]).response
      = some ("ERROR: " ++ "utf-8 codec cannot decode bytes") :=
  ⟨by decide,
    (error_containment (fun _ => false) (fun _ => Except.ok "") [255]
      "utf-8 codec cannot decode bytes" (by decide) (Or.inl (by decide))).1⟩

/-! ## Claim C2 -/

/-- C2: a request whose payload decodes and strips to a path failing the
existence check is answered with exactly the fixed payload
`ERROR: Image not found`; the connection is closed, the inference
pipeline is never entered, and the handler returns normally (no exception
reaches the transport layer), the loop continuing with the next
connection. -/
theorem not_found_fixed_reply (fs : String → Bool)
    (recognize : String → Except String String) (data : List Nat) (s : String)
    (hne : data ≠ []) (hdec : pyDecodeUtf8 data = Except.ok s)
    (hex : path_exists fs (pyStrip s) = false) :
    handle_connection fs recognize data
      = { response := some "ERROR: Image not found", modelInvoked := false,
          connClosed := true } ∧
    ∀ ds, run_loop fs recognize (data :: ds)
        = handle_connection fs recognize data :: run_loop fs recognize ds :=
  ⟨handle_connection_no_path fs recognize data s hne hdec hex, fun _ => rfl⟩

/-- C2 (witness): payload `"x"` against an empty filesystem: the fixed
not-found reply, no model invocation. -/
theorem not_found_fixed_reply_witness :
    (([120] : List Nat) ≠ [] ∧ pyDecodeUtf8 [120] = Except.ok "x" ∧
      path_exists (fun _ => false) (pyStrip "x") = false) ∧
    handle_connection (fun _ => false) (fun _ => Except.ok "") [120]
      = { response := some "ERROR: Image not found", modelInvoked := false,
          connClosed := true } :=
  ⟨⟨by decide, by decide, by decide⟩,
    (not_found_fixed_reply (fun _ => false) (fun _ => Except.ok "") [120] "x" (by decide)
      (by decide) (by decide)).1⟩

/-! ## Claim C3 -/

/-- C3: an empty (zero-byte) payload produces no response, does not enter
the inference pipeline, the connection is still closed, and the accept
loop proceeds to serve every subsequent connection. -/
theorem empty_payload_silent_skip (fs : String → Bool)
    (recognize : String → Except String String) (ds : List (List Nat)) :
    handle_connection fs recognize []
      = { response := none, modelInvoked := false, connClosed := true } ∧
    run_loop fs recognize ([] :: ds)
      = { response := none, modelInvoked := false, connClosed := true }
          :: run_loop fs recognize ds ∧
    (run_loop fs recognize ds).length = ds.length := by
  refine ⟨rfl, rfl, ?_⟩
  induction ds with
  | nil => rfl
  | cons d ds ih => simp [run_loop, ih]

/-! ## Claim C4 -/

/-- C4: `cleanup` never raises and is idempotent: on any starting state of
the two endpoint artifacts it returns normally with both artifacts
absent, and running it a second time (artifacts already absent) again
returns normally with both absent. -/
theorem cleanup_idempotent_never_raises (a : Artifacts) :
    cleanup a = Except.ok { sockExists := false, pidExists := false } ∧
    (cleanup a >>= cleanup) = Except.ok { sockExists := false, pidExists := false } := by
  rcases a with ⟨s, p⟩
  cases s <;> cases p <;> exact ⟨rfl, rfl⟩

/-! ## Claim C10 -/

/-- C10 (counterexample): a payload of one space byte strips to the empty
path, which `pathlib` turns into `"."` — the working directory, which
exists. The daemon therefore does **not** reply with the fixed not-found
payload: it enters the inference pipeline on the empty path (whose image
open fails, as `Image.open('')` raises `FileNotFoundError`) and replies
with the exception-derived error message. -/
theorem whitespace_payload_counterexample :
    handle_connection (fun p => p == ".") (fun _ => Except.error "No such file or directory")
        [32]
      = { response := some "ERROR: No such file or directory", modelInvoked := true,
          connClosed := true } ∧
    (handle_connection (fun p => p == ".") (fun _ => Except.error "No such file or directory")
        [32]).response ≠ some "ERROR: Image not found" := by
  constructor <;> decide

/-- C10 (amended): a non-empty all-whitespace payload strips to the empty
path; `pathlib` normalises the empty path to `"."`, which exists (it is
the working directory), so the existence check passes: instead of the
fixed not-found reply the daemon attempts the inference pipeline on the
empty path and — the image open raising — replies with the
exception-derived `ERROR:` message. It does not silently skip the
request. -/
theorem whitespace_payload_attempts_inference (fs : String → Bool)
    (recognize : String → Except String String) (data : List Nat) (msg : String)
    (hne : data ≠ []) (hws : ∀ b ∈ data, b ∈ wsBytes)
    (hdot : fs "." = true) (hrec : recognize "" = Except.error msg) :
    handle_connection fs recognize data
      = { response := some ("ERROR: " ++ msg), modelInvoked := true, connClosed := true } := by
  have hascii : ∀ b ∈ data, b ≤ 127 := by
    intro b hb
    have h := hws b hb
    simp [wsBytes] at h
    rcases h with rfl | rfl | rfl | rfl | rfl | rfl <;> decide
  have hdec : pyDecodeUtf8 data = Except.ok (String.mk (data.map Char.ofNat)) := by
    unfold pyDecodeUtf8
    rw [utf8Decode_ascii data hascii]
  have hstrip : pyStrip (String.mk (data.map Char.ofNat)) = "" := by
    unfold pyStrip
    have hall : ∀ c ∈ data.map Char.ofNat, pyIsSpace c = true := by
      intro c hc
      obtain ⟨b, hb, rfl⟩ := List.mem_map.mp hc
      exact ws_byte_char b (hws b hb)
    rw [show (String.mk (data.map Char.ofNat)).data = data.map Char.ofNat from rfl]
    rw [strip_all_ws _ hall]
  have hpe : path_exists fs (pyStrip (String.mk (data.map Char.ofNat))) = true := by
    rw [hstrip]
    unfold path_exists pathlibNorm
    simp [hdot]
  rw [handle_connection_infer fs recognize data _ hne hdec hpe, hstrip]
  unfold inference
  rw [hrec]

/-- C10 (witness): the amended behaviour at the single-space payload. -/
theorem whitespace_payload_attempts_inference_witness :
    handle_connection (fun p => p == ".") (fun _ => Except.error "open failed") [32]
      = { response := some ("ERROR: " ++ "open failed"), modelInvoked := true,
          connClosed := true } :=
  whitespace_payload_attempts_inference (fun p => p == ".")
    (fun _ => Except.error "open failed") [32] "open failed" (by decide) (by decide)
    (by decide) rfl

/-! ## Claim C8 -/

/-- C8: in every daemon run the readiness marker `READY` is written to
standard output exactly once, and any prefix of the run's effect trace
that contains the marker already contains the completed warm-up step, the
socket bind and the listen call — the marker is never emitted before the
endpoint is bound and listening. -/
theorem ready_emitted_once_after_bind (warmupOk : Bool) (fs : String → Bool)
    (recognize : String → Except String String) (reqs : List (List Nat)) :
    (run_server_trace warmupOk fs recognize reqs).countP isReadyLine = 1 ∧
    ∀ n, 1 ≤ ((run_server_trace warmupOk fs recognize reqs).take n).countP isReadyLine →
      SEv.warmupDone warmupOk ∈ (run_server_trace warmupOk fs recognize reqs).take n ∧
      SEv.bindSocket ∈ (run_server_trace warmupOk fs recognize reqs).take n ∧
      SEv.listenSocket ∈ (run_server_trace warmupOk fs recognize reqs).take n := by
  constructor
  · unfold run_server_trace
    rw [List.countP_append]
    have h2 : (List.map (fun d => SEv.acceptConn (handle_connection fs recognize d))
        reqs).countP isReadyLine = 0 := by
      rw [List.countP_eq_zero]
      intro e he
      obtain ⟨d, _, rfl⟩ := List.mem_map.mp he
      simp [isReadyLine]
    rw [h2]
    cases warmupOk <;> decide
  · intro n hn
    rcases Nat.lt_or_ge n 10 with hlt | hge
    · exfalso
      unfold run_server_trace at hn
      rw [List.take_append_of_le_length (by simp; omega)] at hn
      interval_cases n <;> cases warmupOk <;> exact absurd hn (by decide)
    · obtain ⟨m, rfl⟩ : ∃ m, n = 10 + m := ⟨n - 10, by omega⟩
      rw [List.take_add]
      have h10 : (run_server_trace warmupOk fs recognize reqs).take 10
          = [SEv.installSignalHandlers, SEv.cleanupStale, SEv.writePid, SEv.loadModel,
             SEv.stderrMsg "Warming up model...", SEv.warmupDone warmupOk,
             SEv.stderrMsg (if warmupOk then "Warmup complete" else "Warmup failed"),
             SEv.bindSocket, SEv.listenSocket, SEv.stdoutLine "READY"] := by
        unfold run_server_trace
        rw [List.take_append_of_le_length (by simp)]
        rfl
      rw [h10]
      refine ⟨?_, ?_, ?_⟩ <;> exact List.mem_append_left _ (by simp)

/-- C8 (witness): in a concrete successful run, the 10-event prefix
contains the marker, and the theorem yields that the bind already
happened in that prefix. -/
theorem ready_emitted_once_after_bind_witness :
    1 ≤ ((run_server_trace true (fun _ => false) (fun _ => Except.ok "") []).take 10).countP
        isReadyLine ∧
    SEv.bindSocket ∈ (run_server_trace true (fun _ => false) (fun _ => Except.ok "") []).take 10 :=
  ⟨by decide,
    ((ready_emitted_once_after_bind true (fun _ => false) (fun _ => Except.ok "") []).2 10
      (by decide)).2.1⟩

end MathSnip
